import Mathlib

/-!
# Verification of the childserver21 relay server variants

Shallow embedding of the vault-membership and delivery coordinator of the
repository's server variants:

* `FileStore`  — `src/server.js` (JSON-file persistence, `db.users/messages/vaults`);
* `SqliteA`    — `src/unnamed/part_000` (better-sqlite3 variant);
* `SqliteB`    — `src/unnamed/part_001`, first program (sqlite3 variant);
* `InMem`      — `src/unnamed/part_001`, second program (in-memory variant);
* `DbJson`     — `src/unnamed/part_002` (db.json + express variant);
* `Registry`   — the per-connection `identify` / `close` handling of the
  connection map, common to the variants.

Modelling conventions, uniform across the file:

* JS `Map`s and JSON objects keyed by strings are association lists
  (`List (κ × α)`), with `setKey` implementing `Map.set` (replace) and
  `eraseKey` implementing `Map.delete`.
* WebSocket handles are opaque connection identifiers (`Nat`); a user is
  live exactly when the connection map has an entry for it
  (`socket.readyState === OPEN` for a registered socket).
* Server-generated message ids (`uuidv4()`, `crypto.randomBytes`) are
  modelled by a `nextId` counter in the state: a fresh, unique opaque id
  per generated message.
* SQL tables are lists of rows in insertion order; `ORDER BY ts ASC` is
  modelled by `List.insertionSort` on the timestamp; `WHERE`/`JOIN`
  clauses are filters.
* Timestamps are `Nat`, encrypted blobs are opaque `String`s.
-/

namespace Child

/-- `Map.set k v` / `obj[k] = v`: replace any previous binding of `k`. -/
def setKey [BEq κ] (l : List (κ × α)) (k : κ) (v : α) : List (κ × α) :=
  (k, v) :: l.filter (fun p => p.1 != k)

/-- `Map.delete k` / `delete obj[k]`. -/
def eraseKey [BEq κ] (l : List (κ × α)) (k : κ) : List (κ × α) :=
  l.filter (fun p => p.1 != k)

/-- A user is live when the connection map has a socket for it. -/
def isLive (conns : List (String × Nat)) (u : String) : Bool :=
  (conns.lookup u).isSome

/-- Vault type, the source strings `'private'` / `'public'`. -/
inductive VType
  | priv
  | pub
deriving DecidableEq, Repr

instance : BEq VType := ⟨fun a b => decide (a = b)⟩

/-! ## `FileStore` — src/server.js (file-storage variant) -/

namespace FileStore

/-- The two relayed client message types dispatched to `handleRelay`
(`'send-message'` and `'send-file-chunk'`). -/
inductive MsgType
  | sendMessage
  | sendFileChunk
deriving DecidableEq, Repr

instance : BEq MsgType := ⟨fun a b => decide (a = b)⟩

/-- The packet `{...msg, from: sender, ts}` built by `handleRelay` and also
stored in the per-user offline queues `db.messages`. -/
structure Packet where
  ptype : MsgType
  vaultId : String
  blob : String
  sender : String
  ts : Nat
deriving DecidableEq, Repr

/-- A vault record `{ members: [...], type: 'private'|'public' }`. -/
structure Vault where
  members : List String
  vtype : VType
deriving DecidableEq, Repr

/-- `db` plus the in-memory `connections` map of server.js. -/
structure SState where
  users : List String
  messages : List (String × List Packet)
  vaults : List (String × Vault)
  conns : List (String × Nat)
deriving DecidableEq, Repr

/-- Outbound frames produced by the server.js handlers. -/
inductive OutMsg
  | errMsg (text : String)
  | vaultJoined (vaultId : String) (others : List String) (isPrivate : Bool)
  | memberJoined (vaultId : String) (newUser : String)
  | packetOut (p : Packet)
  | identifiedMsg (u : String)
  | nukedMsg
deriving DecidableEq, Repr

/-- Append a packet to one user's offline queue (`db.messages[m].push(packet)`,
creating the array if absent). -/
def pushMsg (msgs : List (String × List Packet)) (m : String) (p : Packet) :
    List (String × List Packet) :=
  setKey msgs m ((msgs.lookup m).getD [] ++ [p])

/-- The `members.forEach` loop of `handleRelay`: skip the sender; forward to
live members; queue `send-message` packets (and only those) for offline
members.  Returns the updated `db.messages` and the forwards made. -/
def relayLoop (conns : List (String × Nat)) (sender : String) (p : Packet)
    (msgs : List (String × List Packet)) :
    List String → List (String × List Packet) × List (String × OutMsg)
  | [] => (msgs, [])
  | m :: rest =>
    if m == sender then relayLoop conns sender p msgs rest
    else if isLive conns m then
      let r := relayLoop conns sender p msgs rest
      (r.1, (m, OutMsg.packetOut p) :: r.2)
    else if p.ptype == MsgType.sendMessage then
      relayLoop conns sender p (pushMsg msgs m p) rest
    else
      relayLoop conns sender p msgs rest

/-- `handleRelay(ws, msg, sender)`: drop silently when the vault does not
exist; otherwise fan the packet out to the members.  Result components:
new state, replies to the sending socket (none — `handleRelay` never
writes to `ws`), forwards to other users' sockets. -/
def handleRelay (st : SState) (sender : String) (mtype : MsgType)
    (vaultId blob : String) (ts : Nat) :
    SState × List OutMsg × List (String × OutMsg) :=
  match st.vaults.lookup vaultId with
  | none => (st, [], [])
  | some v =>
    let p : Packet := ⟨mtype, vaultId, blob, sender, ts⟩
    let r := relayLoop st.conns sender p st.messages v.members
    ({ st with messages := r.1 }, [], r.2)

/-- The `vault-joined` reply plus `member-joined` notifications to the other
live members, sent at the end of `handleJoinVault`. -/
def joinNotices (st : SState) (user vaultId : String) (v : Vault) :
    List OutMsg × List (String × OutMsg) :=
  let others := v.members.filter (fun m => m != user)
  ([OutMsg.vaultJoined vaultId others (v.vtype == VType.priv)],
   (others.filter (isLive st.conns)).map
     (fun m => (m, OutMsg.memberJoined vaultId user)))

/-- `handleJoinVault(ws, msg, user)`: create the vault if absent with the
type asserted by the message; if the user is not yet a member, enforce the
2-member cap on vaults whose *stored* type is private, otherwise push the
user; then notify. -/
def handleJoinVault (st : SState) (user vaultId : String) (isPrivate : Bool) :
    SState × List OutMsg × List (String × OutMsg) :=
  let st1 :=
    match st.vaults.lookup vaultId with
    | none =>
        { st with vaults :=
            setKey st.vaults vaultId ⟨[], if isPrivate then VType.priv else VType.pub⟩ }
    | some _ => st
  match st1.vaults.lookup vaultId with
  | none => (st1, [], [])
  | some v =>
    if user ∈ v.members then
      let n := joinNotices st1 user vaultId v
      (st1, n.1, n.2)
    else if v.vtype == VType.priv && v.members.length ≥ 2 then
      (st1, [OutMsg.errMsg "Private vault full"], [])
    else
      let v2 : Vault := ⟨v.members ++ [user], v.vtype⟩
      let st2 := { st1 with vaults := setKey st1.vaults vaultId v2 }
      let n := joinNotices st2 user vaultId v2
      (st2, n.1, n.2)

/-- `handleIdentify(ws, msg)`: register the connection, create the user
entry if absent, send every queued message and then clear the queue, and
acknowledge.  The replies list preserves the send order of the handler. -/
def handleIdentify (st : SState) (u : String) (c : Nat) :
    SState × List OutMsg :=
  let st1 : SState :=
    { st with conns := setKey st.conns u c,
              users := if u ∈ st.users then st.users else st.users ++ [u] }
  let queue := (st1.messages.lookup u).getD []
  let st2 :=
    if queue.length > 0 then { st1 with messages := setKey st1.messages u [] }
    else st1
  (st2, queue.map OutMsg.packetOut ++ [OutMsg.identifiedMsg u])

/-- `handleNuke(ws, msg, user)`: filter the user out of every vault's member
array, delete its message queue and user record, and drop its connection. -/
def handleNuke (st : SState) (u : String) : SState × List OutMsg :=
  ({ users := st.users.filter (fun x => x != u),
     messages := eraseKey st.messages u,
     vaults := st.vaults.map
       (fun p => (p.1, ⟨p.2.members.filter (fun m => m != u), p.2.vtype⟩)),
     conns := eraseKey st.conns u }, [OutMsg.nukedMsg])

/-- Member list of a vault (`db.vaults[v].members`, `[]` when absent). -/
def vaultMembersOf (st : SState) (vaultId : String) : List String :=
  match st.vaults.lookup vaultId with
  | none => []
  | some v => v.members

end FileStore

/-! ## `SqliteA` — src/unnamed/part_000 (better-sqlite3 variant) -/

namespace SqliteA

/-- A row of the `messages` table: id, vault_id, sender_id, ts, json blob,
delivered flag (one global flag per row, `INTEGER DEFAULT 0`). -/
structure MsgRow where
  id : Nat
  vaultId : String
  senderId : String
  ts : Nat
  blob : String
  delivered : Bool
deriving DecidableEq, Repr

/-- The SQLite tables (rows in insertion order), the `connections` map and
the id generator.  `created_at` / `last_seen` columns are kept as written but
never read by the embedded operations, so they are omitted;
`users` keeps only the primary keys. -/
structure AState where
  vaults : List (String × VType)
  vaultMembers : List (String × String)
  messages : List MsgRow
  users : List String
  conns : List (String × Nat)
  nextId : Nat
deriving DecidableEq, Repr

/-- `SELECT id FROM vaults WHERE id = ?` is non-empty. -/
def vaultExists (st : AState) (vaultId : String) : Bool :=
  (st.vaults.lookup vaultId).isSome

/-- `SELECT COUNT(*) FROM vault_members WHERE vault_id = ?`. -/
def getVaultMemberCount (st : AState) (vaultId : String) : Nat :=
  (st.vaultMembers.filter (fun p => p.1 == vaultId)).length

/-- `INSERT INTO vaults` guarded by `vaultExists` (first writer wins). -/
def addVaultIfNotExists (st : AState) (vaultId : String) (t : VType) : AState :=
  if vaultExists st vaultId then st
  else { st with vaults := st.vaults ++ [(vaultId, t)] }

/-- `INSERT OR IGNORE INTO vault_members` (primary key `(vault_id, user_id)`). -/
def addMemberToVault (st : AState) (vaultId userId : String) : AState :=
  if (vaultId, userId) ∈ st.vaultMembers then st
  else { st with vaultMembers := st.vaultMembers ++ [(vaultId, userId)] }

/-- `SELECT user_id FROM vault_members WHERE vault_id = ?`. -/
def getVaultMembers (st : AState) (vaultId : String) : List String :=
  (st.vaultMembers.filter (fun p => p.1 == vaultId)).map (fun p => p.2)

/-- `UPDATE messages SET delivered = 1 WHERE id = ?`. -/
def markMessageDelivered (msgs : List MsgRow) (i : Nat) : List MsgRow :=
  msgs.map (fun m => if m.id == i then { m with delivered := true } else m)

/-- `SELECT m.* FROM messages m JOIN vault_members v ON m.vault_id =
v.vault_id WHERE v.user_id = ? AND m.delivered = 0 ORDER BY m.ts ASC`. -/
def getUndeliveredMessagesForUser (st : AState) (userId : String) : List MsgRow :=
  List.insertionSort (fun a b => a.ts ≤ b.ts)
    (st.messages.filter
      (fun m => !m.delivered && st.vaultMembers.contains (m.vaultId, userId)))

/-- The member loop of `deliverMessageToVaultMembers`: skip the sender,
forward to live members and mark the single row delivered on each live
forward.  Returns the updated `messages` table and the forwards. -/
def relayLoopA (conns : List (String × Nat)) (sender : String) (msgId : Nat)
    (row : MsgRow) (msgs : List MsgRow) :
    List String → List MsgRow × List (String × MsgRow)
  | [] => (msgs, [])
  | m :: rest =>
    if m == sender then relayLoopA conns sender msgId row msgs rest
    else if isLive conns m then
      let r := relayLoopA conns sender msgId row (markMessageDelivered msgs msgId) rest
      (r.1, (m, row) :: r.2)
    else
      relayLoopA conns sender msgId row msgs rest

/-- `deliverMessageToVaultMembers(senderId, vaultId, blob, ts)`: insert the
message row (`queueMessage`, `delivered = 0`) unconditionally — there is no
vault-existence check — then forward to the live members, marking the single
row delivered on each live forward. -/
def deliverMessageToVaultMembers (st : AState) (senderId vaultId blob : String)
    (ts : Nat) : AState × List (String × MsgRow) :=
  let members := getVaultMembers st vaultId
  let msgId := st.nextId
  let row : MsgRow := ⟨msgId, vaultId, senderId, ts, blob, false⟩
  let msgs1 := st.messages ++ [row]
  let r := relayLoopA st.conns senderId msgId row msgs1 members
  ({ st with messages := r.1, nextId := st.nextId + 1 }, r.2)

/-- Replies of the part_000 `join-vault` handler. -/
inductive ReplyA
  | errFull
  | joinAck (vaultId : String)
deriving DecidableEq, Repr

/-- `case "join-vault"`: create the vault if absent with the type asserted
by the message; the cap is checked against the *message's* `isPrivate`
(`type === "private"`), not the vault's stored type; then
`INSERT OR IGNORE` the membership. -/
def joinVault (st : AState) (vaultId : String) (isPrivate : Bool)
    (userHash : String) : AState × ReplyA :=
  let t := if isPrivate then VType.priv else VType.pub
  let st1 := addVaultIfNotExists st vaultId t
  if t == VType.priv && getVaultMemberCount st1 vaultId ≥ 2 then
    (st1, ReplyA.errFull)
  else
    (addMemberToVault st1 vaultId userHash, ReplyA.joinAck vaultId)

/-- `case "identify"`: register the connection and user, then send each
undelivered message (ascending ts) and mark it delivered.  Returns the new
state and the delivered rows in send order. -/
def identifyA (st : AState) (u : String) (c : Nat) : AState × List MsgRow :=
  let st1 : AState :=
    { st with conns := setKey st.conns u c,
              users := if u ∈ st.users then st.users else st.users ++ [u] }
  let und := getUndeliveredMessagesForUser st1 u
  let msgs2 := st1.messages.map
    (fun m => if und.any (fun x => x.id == m.id) then { m with delivered := true } else m)
  ({ st1 with messages := msgs2 }, und)

/-- `case "nuke"`: `DELETE FROM vault_members WHERE user_id = ?`, then the
`UPDATE messages SET delivered = 1` whose subquery joins `vault_members` on
the nuked user — executed *after* the membership deletion, so the subquery
matches against the already-filtered membership table. -/
def nukeA (st : AState) (u : String) : AState :=
  let members2 := st.vaultMembers.filter (fun p => p.2 != u)
  let msgs2 := st.messages.map
    (fun m => if members2.contains (m.vaultId, u) then { m with delivered := true } else m)
  { st with vaultMembers := members2, messages := msgs2 }

end SqliteA

/-! ## `SqliteB` — src/unnamed/part_001, first program (sqlite3 variant) -/

namespace SqliteB

/-- A row of this variant's `messages` table: id, vaultId, fromUser,
messageBlob, timestamp.  No delivered flag exists in this schema. -/
structure BRow where
  id : Nat
  vaultId : String
  fromUser : String
  blob : String
  ts : Nat
deriving DecidableEq, Repr

/-- The two tables (`messages`, `vaultMembers` — the latter has *no*
primary key, so duplicate rows are possible), the `clients` map, the
`liveVaultMap` and the id generator. -/
structure BState where
  messages : List BRow
  vaultMembers : List (String × String)
  clients : List (String × Nat)
  liveVaultMap : List (String × List String)
  nextId : Nat
deriving DecidableEq, Repr

/-- `addToLiveVault(vaultId, userId)`: add to the vault's `Set` of live
members (created if absent; `Set.add` is a no-op on an existing element). -/
def addToLiveVault (lv : List (String × List String)) (vaultId userId : String) :
    List (String × List String) :=
  let cur := (lv.lookup vaultId).getD []
  setKey lv vaultId (if userId ∈ cur then cur else cur ++ [userId])

/-- `INSERT INTO vaultMembers (vaultId, userId) VALUES (?, ?)`: the table
has no uniqueness constraint, so the insert always appends a row (the
`.catch` around it only swallows errors, it prevents nothing). -/
def insertMember (st : BState) (vaultId userId : String) : BState :=
  { st with vaultMembers := st.vaultMembers ++ [(vaultId, userId)] }

/-- `storeMessage(vaultId, fromUser, messageBlob)` with its server-assigned
uuid and `Date.now()` timestamp. -/
def storeMessage (st : BState) (vaultId fromUser blob : String) (now : Nat) :
    BState :=
  { st with messages := st.messages ++ [⟨st.nextId, vaultId, fromUser, blob, now⟩],
            nextId := st.nextId + 1 }

/-- `SELECT * FROM messages WHERE vaultId IN (userVaults) ORDER BY
timestamp ASC` — the query of `deliverOfflineMessages`.  Nothing is deleted
or marked: the rows remain in the table afterwards. -/
def offlineRowsFor (st : BState) (userVaults : List String) : List BRow :=
  List.insertionSort (fun a b => a.ts ≤ b.ts)
    (st.messages.filter (fun m => userVaults.contains m.vaultId))

/-- `case "identify"`: register the client, join the vaults the client
*declares* (live map plus an unconditional `vaultMembers` insert per
declared vault), then deliver the stored messages of those vaults.
Returns the new state and the delivered rows in send order. -/
def identifyB (st : BState) (u : String) (c : Nat) (declaredVaults : List String) :
    BState × List BRow :=
  let st1 := { st with clients := setKey st.clients u c }
  let st2 := declaredVaults.foldl
    (fun acc v =>
      let acc1 := { acc with liveVaultMap := addToLiveVault acc.liveVaultMap v u }
      insertMember acc1 v u)
    st1
  (st2, offlineRowsFor st2 declaredVaults)

/-- `case "join-vault"`: add to the live map and append a `vaultMembers`
row — no cap check, no duplicate check. -/
def joinVaultB (st : BState) (vaultId userId : String) : BState :=
  let st1 := { st with liveVaultMap := addToLiveVault st.liveVaultMap vaultId userId }
  insertMember st1 vaultId userId

/-- `case "nuke"`: `DELETE FROM messages WHERE fromUser = ?` — and nothing
else: memberships and the live map are untouched. -/
def nukeB (st : BState) (u : String) : BState :=
  { st with messages := st.messages.filter (fun m => m.fromUser != u) }

end SqliteB

/-! ## `InMem` — src/unnamed/part_001, second program (in-memory variant) -/

namespace InMem

/-- A queued / relayed message `{vaultId, blob, from, id, ts}`. -/
structure QMsg where
  vaultId : String
  blob : String
  sender : String
  id : Nat
  ts : Nat
deriving DecidableEq, Repr

/-- The `send-ack` reply `{ id, delivered }` — `delivered` is the boolean
set when at least one member received the message live. -/
structure Ack where
  id : Nat
  delivered : Bool
deriving DecidableEq, Repr

/-- `messageQueue`, `connections`, `vaultMembers` (vaultId → `Set` of
userIds, modelled as an insertion-ordered duplicate-free list) and the
`generateMessageId` generator. -/
structure MState where
  messageQueue : List (String × List QMsg)
  conns : List (String × Nat)
  vaultMembers : List (String × List String)
  nextId : Nat
deriving DecidableEq, Repr

/-- `addToQueue(userId, messageData)`: push onto the user's queue array,
creating it if absent. -/
def addToQueue (q : List (String × List QMsg)) (userId : String) (m : QMsg) :
    List (String × List QMsg) :=
  setKey q userId ((q.lookup userId).getD [] ++ [m])

/-- `addVaultMember(vaultId, userId)` (`Set.add`). -/
def addVaultMember (vm : List (String × List String)) (vaultId userId : String) :
    List (String × List String) :=
  let cur := (vm.lookup vaultId).getD []
  setKey vm vaultId (if userId ∈ cur then cur else cur ++ [userId])

/-- `getVaultMembers(vaultId)` (`|| new Set()`). -/
def membersOf (st : MState) (vaultId : String) : List String :=
  (st.vaultMembers.lookup vaultId).getD []

/-- The `members.forEach` loop of `case 'send'`: skip the sender; forward
to live members (setting `delivered = true`); queue for offline members.
Returns the updated `messageQueue`, the users forwarded to live, and the
final `delivered` boolean. -/
def sendLoop (conns : List (String × Nat)) (sender : String) (m : QMsg)
    (q : List (String × List QMsg)) :
    List String → List (String × List QMsg) × List String × Bool
  | [] => (q, [], false)
  | u :: rest =>
    if u == sender then sendLoop conns sender m q rest
    else if isLive conns u then
      let r := sendLoop conns sender m q rest
      (r.1, u :: r.2.1, true)
    else
      sendLoop conns sender m (addToQueue q u m) rest

/-- `case 'send'`: build the message with `from = msg.from ||
currentUserId`, `ts = msg.ts || Date.now()` and a fresh server id, relay to
the vault members, and ack `{ id, delivered }` to the sender. -/
def sendM (st : MState) (currentUserId vaultId blob : String)
    (fromField : Option String) (tsField : Option Nat) (now : Nat) :
    MState × Ack × List String :=
  let sender := fromField.getD currentUserId
  let ts := tsField.getD now
  let m : QMsg := ⟨vaultId, blob, sender, st.nextId, ts⟩
  let r := sendLoop st.conns currentUserId m st.messageQueue (membersOf st vaultId)
  ({ st with messageQueue := r.1, nextId := st.nextId + 1 },
   ⟨m.id, r.2.2⟩, r.2.1)

/-- `case 'identify'`: register the connection, register the declared
vaults, then `getAndClearQueue` — the queue entry is *deleted first* and
the returned array is forwarded afterwards.  Returns the new state and the
forwarded messages in queue order. -/
def identifyM (st : MState) (u : String) (c : Nat) (declaredVaults : List String) :
    MState × List QMsg :=
  let st1 : MState :=
    { st with conns := setKey st.conns u c,
              vaultMembers := declaredVaults.foldl (fun vm v => addVaultMember vm v u)
                st.vaultMembers }
  let q := (st1.messageQueue.lookup u).getD []
  ({ st1 with messageQueue := eraseKey st1.messageQueue u }, q)

/-- The identify handler interrupted after forwarding `n` of the queued
messages (e.g. the socket closes mid-drain): `getAndClearQueue` already
deleted the whole queue entry before the first forward, so the state
reflects the full removal while only the first `n` messages went out. -/
def identifyInterrupted (st : MState) (u : String) (c : Nat)
    (declaredVaults : List String) (n : Nat) : MState × List QMsg :=
  let r := identifyM st u c declaredVaults
  (r.1, r.2.take n)

/-- `case 'join-vault'`: `addVaultMember`, reply `join-ack` — no cap. -/
def joinVaultM (st : MState) (userId vaultId : String) : MState :=
  { st with vaultMembers := addVaultMember st.vaultMembers vaultId userId }

end InMem

/-! ## `DbJson` — src/unnamed/part_002 (db.json + express variant) -/

namespace DbJson

/-- A vault `{ creator, members: Set }`. -/
structure JVault where
  creator : String
  members : List String
deriving DecidableEq, Repr

/-- The envelope `Object.assign({}, msg, { target: member })` built per
recipient of a `send`. -/
structure JEnv where
  vaultId : String
  sender : String
  blob : String
  ts : Nat
  target : String
deriving DecidableEq, Repr

/-- The `send-ack` replies of this variant. -/
inductive JReply
  | ackErrUnknownVault
  | ackOk (delivered : Bool)
deriving DecidableEq, Repr

/-- `DB.vaults`, `DB.queues` and the `connections` map. -/
structure JState where
  vaults : List (String × JVault)
  queues : List (String × List JEnv)
  conns : List (String × Nat)
deriving DecidableEq, Repr

/-- `queueMessage(userId, msg)`: push onto `DB.queues[userId]`. -/
def queueMessageJ (q : List (String × List JEnv)) (userId : String) (m : JEnv) :
    List (String × List JEnv) :=
  setKey q userId ((q.lookup userId).getD [] ++ [m])

/-- The member loop of `case 'send'`: skip the sender; live members get the
envelope (setting `delivered = true`), offline members get it queued. -/
def sendLoopJ (conns : List (String × Nat)) (sender vaultId blob : String)
    (ts : Nat) (q : List (String × List JEnv)) :
    List String → List (String × List JEnv) × List (String × JEnv) × Bool
  | [] => (q, [], false)
  | u :: rest =>
    if u == sender then sendLoopJ conns sender vaultId blob ts q rest
    else
      let env : JEnv := ⟨vaultId, sender, blob, ts, u⟩
      if isLive conns u then
        let r := sendLoopJ conns sender vaultId blob ts q rest
        (r.1, (u, env) :: r.2.1, true)
      else
        sendLoopJ conns sender vaultId blob ts (queueMessageJ q u env) rest

/-- `case 'send'`: when the vault does not exist, reply
`send-ack { ok:false, error:'unknown-vault' }` and do nothing else;
otherwise fan out to the members and ack `{ ok:true, delivered }`. -/
def sendJ (st : JState) (sender vaultId blob : String) (ts : Nat) :
    JState × JReply × List (String × JEnv) :=
  match st.vaults.lookup vaultId with
  | none => (st, JReply.ackErrUnknownVault, [])
  | some v =>
    let r := sendLoopJ st.conns sender vaultId blob ts st.queues v.members
    ({ st with queues := r.1 }, JReply.ackOk r.2.2, r.2.1)

/-- `deliverQueued(userId)`: send every queued message, then clear the
queue (`DB.queues[userId] = []`) — send errors are caught and logged, so
the clear runs regardless. -/
def deliverQueued (st : JState) (u : String) : JState × List JEnv :=
  if (st.conns.lookup u).isSome then
    let list := (st.queues.lookup u).getD []
    ({ st with queues := setKey st.queues u [] }, list)
  else (st, [])

/-- `case 'nuke'`: delete the user's queue and remove it from every
vault's member set. -/
def nukeJ (st : JState) (u : String) : JState :=
  { st with queues := eraseKey st.queues u,
            vaults := st.vaults.map
              (fun p => (p.1, ⟨p.2.creator, p.2.members.filter (fun m => m != u)⟩)) }

end DbJson

/-! ## `Registry` — the connection map with per-connection close handlers

Common to the variants (src/server.js 117–121, src/unnamed/part_001
469–474, src/unnamed/part_002 296–301): `identify` does
`connections.set(user, ws)` and stores the user in the connection-local
`authenticatedUser` / `currentUserId` / `userId` variable; the close
handler of a connection does `connections.delete(thatVariable)`
unconditionally. -/

namespace Registry

/-- `conns` is the shared `connections` map (user → socket id); `auth`
records each connection's local authenticated-user variable. -/
structure RState where
  conns : List (String × Nat)
  auth : List (Nat × String)
deriving DecidableEq, Repr

/-- The `identify` effect on the registry: `connections.set(u, ws)` and
`authenticatedUser = u` on connection `c`. -/
def identifyEv (st : RState) (c : Nat) (u : String) : RState :=
  { conns := setKey st.conns u c, auth := setKey st.auth c u }

/-- The close handler of connection `c`: if it had authenticated as `u`,
`connections.delete(u)` — regardless of whether the map currently points
at `c` or at a newer connection of the same user. -/
def closeEv (st : RState) (c : Nat) : RState :=
  match st.auth.lookup c with
  | some u => { conns := eraseKey st.conns u, auth := eraseKey st.auth c }
  | none => st

/-- `lookup(u)`: the live handle for `u`, if any. -/
def lookupConn (st : RState) (u : String) : Option Nat :=
  st.conns.lookup u

/-- Keys of an association list are duplicate-free ("at most one entry per
user"). -/
def KeysNodup (l : List (String × Nat)) : Prop :=
  (l.map Prod.fst).Nodup

end Registry

end Child

open Child

/-! ## Helper lemmas -/

/-- `relayLoop` does not touch `db.messages` when the relayed packet is a
file chunk: the offline branch only queues `send-message` packets. -/
theorem relayLoop_chunk_frame (conns : List (String × Nat)) (sender : String)
    (p : FileStore.Packet) (h : p.ptype = FileStore.MsgType.sendFileChunk) :
    ∀ (ms : List String) (msgs : List (String × List FileStore.Packet)),
      (FileStore.relayLoop conns sender p msgs ms).1 = msgs := by
  intro ms
  induction ms with
  | nil => intro msgs; rfl
  | cons m rest ih =>
    intro msgs
    by_cases hm : (m == sender) = true
    · simp [FileStore.relayLoop, hm, ih]
    · by_cases hl : isLive conns m = true
      · simp [FileStore.relayLoop, hm, hl, ih]
      · have hp : (p.ptype == FileStore.MsgType.sendMessage) = false := by
          simp [h]
        simp [FileStore.relayLoop, hm, hl, hp, ih]

/-- `handleRelay` of a file chunk leaves the whole state unchanged:
the only field it can write is `messages`, and `relayLoop` leaves that
untouched for chunks. -/
theorem handleRelay_chunk_id (st : FileStore.SState) (sender vaultId blob : String)
    (ts : Nat) :
    (FileStore.handleRelay st sender FileStore.MsgType.sendFileChunk vaultId blob ts).1
      = st := by
  unfold FileStore.handleRelay
  cases hv : st.vaults.lookup vaultId with
  | none => rfl
  | some v =>
    simp only []
    rw [relayLoop_chunk_frame st.conns sender _ rfl v.members st.messages]

/-! ## Claim theorems -/

/-- C1: in the file-storage variant the third distinct joiner of a private
vault is refused and the member count stays 2; but in the better-sqlite3
variant the cap is checked against the join message's `isPrivate` field
rather than the vault's stored type, so the same third joiner sent with
`isPrivate: false` is admitted into the still-private vault, which then
holds 3 members and acks the join. -/
theorem C1_private_cap_bug_eval :
    ((FileStore.handleJoinVault (FileStore.handleJoinVault (FileStore.handleJoinVault
        ⟨[], [], [], []⟩ "A" "V" true).1 "B" "V" true).1 "C" "V" false).2.1
      = [FileStore.OutMsg.errMsg "Private vault full"]) ∧
    (FileStore.vaultMembersOf (FileStore.handleJoinVault (FileStore.handleJoinVault
        (FileStore.handleJoinVault ⟨[], [], [], []⟩ "A" "V" true).1 "B" "V" true).1
        "C" "V" false).1 "V" = ["A", "B"]) ∧
    ((SqliteA.joinVault (SqliteA.joinVault (SqliteA.joinVault
        ⟨[], [], [], [], [], 0⟩ "V" true "A").1 "V" true "B").1 "V" false "C").2
      = SqliteA.ReplyA.joinAck "V") ∧
    (SqliteA.getVaultMemberCount (SqliteA.joinVault (SqliteA.joinVault (SqliteA.joinVault
        ⟨[], [], [], [], [], 0⟩ "V" true "A").1 "V" true "B").1 "V" false "C").1 "V"
      = 3) ∧
    ((SqliteA.joinVault (SqliteA.joinVault (SqliteA.joinVault
        ⟨[], [], [], [], [], 0⟩ "V" true "A").1 "V" true "B").1 "V" false "C").1.vaults.lookup
        "V" = some VType.priv) := by
  decide

/-- C2: in the better-sqlite3 variant a message to vault `V = {A,B,C}`
sent by `A` while `B` is live and `C` is offline is stored as one row whose
single `delivered` flag is set by the live forward to `B`; `C`'s next
identify therefore drains nothing.  The file-storage variant, queuing one
packet per offline recipient, does deliver the packet to `C` on its next
identify. -/
theorem C2_global_delivered_flag_eval :
    ((SqliteA.deliverMessageToVaultMembers
        ⟨[("V", VType.pub)], [("V", "A"), ("V", "B"), ("V", "C")], [], [],
          [("A", 1), ("B", 2)], 0⟩ "A" "V" "ct1" 10).2
      = [("B", ⟨0, "V", "A", 10, "ct1", false⟩)]) ∧
    ((SqliteA.identifyA (SqliteA.deliverMessageToVaultMembers
        ⟨[("V", VType.pub)], [("V", "A"), ("V", "B"), ("V", "C")], [], [],
          [("A", 1), ("B", 2)], 0⟩ "A" "V" "ct1" 10).1 "C" 3).2 = []) ∧
    ((FileStore.handleIdentify (FileStore.handleRelay
        ⟨[], [], [("V", ⟨["A", "B", "C"], VType.pub⟩)], [("A", 1), ("B", 2)]⟩
        "A" FileStore.MsgType.sendMessage "V" "ct1" 10).1 "C" 3).2
      = [FileStore.OutMsg.packetOut ⟨FileStore.MsgType.sendMessage, "V", "ct1", "A", 10⟩,
         FileStore.OutMsg.identifiedMsg "C"]) := by
  decide

/-- C3: in the in-memory variant the identify drain deletes the whole
queue entry (`getAndClearQueue`) before forwarding anything.  With two
envelopes queued for `c`, a drain interrupted after forwarding the first
leaves the durable queue already empty, so the next identify delivers
none of the remaining envelopes — the remaining `M − N = 1` envelope is
lost, not redelivered. -/
theorem C3_drain_clears_before_forward_eval :
    ((InMem.identifyInterrupted
        ⟨[("c", [⟨"V", "b1", "a", 0, 1⟩, ⟨"V", "b2", "a", 1, 2⟩])], [], [], 2⟩
        "c" 7 [] 1).2 = [⟨"V", "b1", "a", 0, 1⟩]) ∧
    ((InMem.identifyInterrupted
        ⟨[("c", [⟨"V", "b1", "a", 0, 1⟩, ⟨"V", "b2", "a", 1, 2⟩])], [], [], 2⟩
        "c" 7 [] 1).1.messageQueue.lookup "c" = none) ∧
    ((InMem.identifyM (InMem.identifyInterrupted
        ⟨[("c", [⟨"V", "b1", "a", 0, 1⟩, ⟨"V", "b2", "a", 1, 2⟩])], [], [], 2⟩
        "c" 7 [] 1).1 "c" 8 []).2 = []) := by
  decide

/-- C4: in the sqlite3 variant `nuke(u)` only runs
`DELETE FROM messages WHERE fromUser = u`.  With `u` and `w` members of
vault `V` and one stored message from `w`, after `nuke u` the membership
row `(V, u)` is still present and `u`'s next identify (declaring `V`)
still delivers the stored envelope — neither clause of the claim holds. -/
theorem C4_nuke_keeps_membership_eval :
    (("V", "u") ∈ (SqliteB.nukeB
        ⟨[⟨0, "V", "w", "ct", 5⟩], [("V", "w"), ("V", "u")], [], [], 1⟩ "u").vaultMembers) ∧
    ((SqliteB.identifyB (SqliteB.nukeB
        ⟨[⟨0, "V", "w", "ct", 5⟩], [("V", "w"), ("V", "u")], [], [], 1⟩ "u")
        "u" 3 ["V"]).2 = [⟨0, "V", "w", "ct", 5⟩]) := by
  decide

/-- C5: in the better-sqlite3 variant the private-vault cap is checked
before the membership test, so an existing member rejoining a full private
vault receives the `VaultFull` error instead of an idempotent ack (the
membership itself is unchanged); and in the sqlite3 variant, whose
`vaultMembers` table has no uniqueness constraint, a rejoin inserts a
duplicate membership row. -/
theorem C5_rejoin_not_idempotent_eval :
    ((SqliteA.joinVault
        ⟨[("V", VType.priv)], [("V", "A"), ("V", "B")], [], [], [], 0⟩
        "V" true "A").2 = SqliteA.ReplyA.errFull) ∧
    ((SqliteA.joinVault
        ⟨[("V", VType.priv)], [("V", "A"), ("V", "B")], [], [], [], 0⟩
        "V" true "A").1.vaultMembers = [("V", "A"), ("V", "B")]) ∧
    ((SqliteB.joinVaultB ⟨[], [("V", "u")], [], [], 0⟩ "V" "u").vaultMembers
      = [("V", "u"), ("V", "u")]) := by
  decide

/-- C10: in the file-storage variant a `send-file-chunk` relay leaves the
entire persistent state unchanged — in particular every offline member's
durable queue — so a subsequent identify of any user drains exactly what
it would have drained without the chunk relay: offline members never
receive the chunk on reconnect. -/
theorem C10_file_chunk_not_queued (st : FileStore.SState)
    (sender vaultId blob : String) (ts : Nat) (u : String) (c : Nat) :
    ((FileStore.handleRelay st sender FileStore.MsgType.sendFileChunk
        vaultId blob ts).1.messages = st.messages) ∧
    ((FileStore.handleIdentify (FileStore.handleRelay st sender
        FileStore.MsgType.sendFileChunk vaultId blob ts).1 u c).2
      = (FileStore.handleIdentify st u c).2) := by
  rw [handleRelay_chunk_id]
  exact ⟨rfl, rfl⟩

instance : IsTotal SqliteA.MsgRow (fun a b => a.ts ≤ b.ts) :=
  ⟨fun a b => Nat.le_total a.ts b.ts⟩

instance : IsTrans SqliteA.MsgRow (fun a b => a.ts ≤ b.ts) :=
  ⟨fun _ _ _ h h' => Nat.le_trans h h'⟩

instance : IsTotal SqliteB.BRow (fun a b => a.ts ≤ b.ts) :=
  ⟨fun a b => Nat.le_total a.ts b.ts⟩

instance : IsTrans SqliteB.BRow (fun a b => a.ts ≤ b.ts) :=
  ⟨fun _ _ _ h h' => Nat.le_trans h h'⟩

/-- Sorting rows by timestamp yields a timestamp list sorted ascending. -/
theorem sorted_ts_map_A (l : List SqliteA.MsgRow) :
    List.Sorted (· ≤ ·)
      ((List.insertionSort (fun a b => a.ts ≤ b.ts) l).map (fun m => m.ts)) := by
  have h := List.sorted_insertionSort (fun a b : SqliteA.MsgRow => a.ts ≤ b.ts) l
  unfold List.Sorted at h ⊢
  rw [List.pairwise_map]
  exact h

/-- Sorting rows by timestamp yields a timestamp list sorted ascending. -/
theorem sorted_ts_map_B (l : List SqliteB.BRow) :
    List.Sorted (· ≤ ·)
      ((List.insertionSort (fun a b => a.ts ≤ b.ts) l).map (fun m => m.ts)) := by
  have h := List.sorted_insertionSort (fun a b : SqliteB.BRow => a.ts ≤ b.ts) l
  unfold List.Sorted at h ⊢
  rw [List.pairwise_map]
  exact h

/-- C6 counterexample: in the in-memory variant, sends carry client-supplied
timestamps (`msg.ts || Date.now()`) and the queue is drained in enqueue
order.  With `a` and `b` live and `c` offline in vault `V`, a send from `a`
with ts 5 followed by a send from `b` with ts 3 queues `[ts 5, ts 3]` for
`c`, and `c`'s drain forwards them in that order — not ascending by
timestamp. -/
theorem C6_inmem_drain_order_cex :
    (((InMem.identifyM (InMem.sendM (InMem.sendM
        ⟨[], [("a", 1), ("b", 2)], [("V", ["a", "b", "c"])], 0⟩
        "a" "V" "x1" none (some 5) 100).1
        "b" "V" "x2" none (some 3) 101).1 "c" 3 []).2.map (fun m => m.ts))
      = [5, 3]) ∧
    ¬ List.Sorted (· ≤ ·)
      ((InMem.identifyM (InMem.sendM (InMem.sendM
        ⟨[], [("a", 1), ("b", 2)], [("V", ["a", "b", "c"])], 0⟩
        "a" "V" "x1" none (some 5) 100).1
        "b" "V" "x2" none (some 3) 101).1 "c" 3 []).2.map (fun m => m.ts)) := by
  constructor
  · decide
  · decide

/-- C6 amended: the SQL-backed drains deliver in ascending timestamp order
(their queries sort by `ts`); the in-memory drain delivers exactly the
queued list in enqueue (arrival) order, which matches timestamp order only
when the queued sends arrived in timestamp order. -/
theorem C6_drain_order_amended (stA : SqliteA.AState) (uA : String)
    (stB : SqliteB.BState) (vs : List String)
    (stM : InMem.MState) (u : String) (c : Nat) (dv : List String) :
    List.Sorted (· ≤ ·)
      ((SqliteA.getUndeliveredMessagesForUser stA uA).map (fun m => m.ts)) ∧
    List.Sorted (· ≤ ·)
      ((SqliteB.offlineRowsFor stB vs).map (fun m => m.ts)) ∧
    (InMem.identifyM stM u c dv).2 = (stM.messageQueue.lookup u).getD [] := by
  exact ⟨sorted_ts_map_A _, sorted_ts_map_B _, rfl⟩

/-- C7 counterexample: the better-sqlite3 variant's send path has no
vault-existence check: a `send` to the nonexistent vault `V` durably
inserts the envelope row (a state change), and after a later `join-vault`
on `V` that envelope is even delivered to the joiner's identify. -/
theorem C7_unknown_vault_state_change_cex :
    (SqliteA.vaultExists ⟨[], [], [], [], [], 0⟩ "V" = false) ∧
    ((SqliteA.deliverMessageToVaultMembers
        ⟨[], [], [], [], [], 0⟩ "A" "V" "ct" 1).1.messages
      = [⟨0, "V", "A", 1, "ct", false⟩]) ∧
    ((SqliteA.identifyA (SqliteA.joinVault
        (SqliteA.deliverMessageToVaultMembers
          ⟨[], [], [], [], [], 0⟩ "A" "V" "ct" 1).1
        "V" false "B").1 "B" 9).2 = [⟨0, "V", "A", 1, "ct", false⟩]) := by
  decide

/-- C7 amended: a send to a nonexistent vault is handled per variant —
the file-storage variant silently drops it with no state change and no
output; the db.json variant replies `send-ack{ok:false}` with no state
change; the better-sqlite3 variant performs no existence check and durably
inserts the envelope row even though the vault does not exist (with no
member, nothing is forwarded). -/
theorem C7_unknown_vault_amended (stF : FileStore.SState) (senderF : String)
    (mt : FileStore.MsgType) (vF bF : String) (tsF : Nat)
    (hF : stF.vaults.lookup vF = none)
    (stJ : DbJson.JState) (senderJ vJ bJ : String) (tsJ : Nat)
    (hJ : stJ.vaults.lookup vJ = none)
    (stA : SqliteA.AState) (senderA vA bA : String) (tsA : Nat)
    (_hA : SqliteA.vaultExists stA vA = false)
    (hA2 : SqliteA.getVaultMembers stA vA = []) :
    (FileStore.handleRelay stF senderF mt vF bF tsF = (stF, [], [])) ∧
    (DbJson.sendJ stJ senderJ vJ bJ tsJ
      = (stJ, DbJson.JReply.ackErrUnknownVault, [])) ∧
    ((SqliteA.deliverMessageToVaultMembers stA senderA vA bA tsA).1.messages
      = stA.messages ++ [⟨stA.nextId, vA, senderA, tsA, bA, false⟩]) ∧
    ((SqliteA.deliverMessageToVaultMembers stA senderA vA bA tsA).2 = []) := by
  refine ⟨?_, ?_, ?_, ?_⟩
  · simp [FileStore.handleRelay, hF]
  · simp [DbJson.sendJ, hJ]
  · simp [SqliteA.deliverMessageToVaultMembers, hA2, SqliteA.relayLoopA]
  · simp [SqliteA.deliverMessageToVaultMembers, hA2, SqliteA.relayLoopA]

/-- Witness for `C7_unknown_vault_amended` at concrete empty states. -/
theorem C7_unknown_vault_amended_w :
    (FileStore.handleRelay ⟨[], [], [], []⟩ "A" FileStore.MsgType.sendMessage "V" "b" 1
      = (⟨[], [], [], []⟩, [], [])) ∧
    (DbJson.sendJ ⟨[], [], []⟩ "A" "V" "b" 1
      = (⟨[], [], []⟩, DbJson.JReply.ackErrUnknownVault, [])) ∧
    ((SqliteA.deliverMessageToVaultMembers
        ⟨[], [], [], [], [], 0⟩ "A" "V" "b" 1).1.messages
      = [] ++ [⟨0, "V", "A", 1, "b", false⟩]) ∧
    ((SqliteA.deliverMessageToVaultMembers
        ⟨[], [], [], [], [], 0⟩ "A" "V" "b" 1).2 = []) :=
  C7_unknown_vault_amended ⟨[], [], [], []⟩ "A" FileStore.MsgType.sendMessage "V" "b" 1 rfl
    ⟨[], [], []⟩ "A" "V" "b" 1 rfl ⟨[], [], [], [], [], 0⟩ "A" "V" "b" 1 rfl rfl

/-- C8 counterexample: the file-storage variant's `handleRelay` never
replies to the sending socket at all — no ack, no message id, no count
(here `A` sends to the existing vault `V = {A,B}` with `B` live); and the
in-memory variant's ack field `delivered` is a boolean: a send reaching
two live recipients and a send reaching one produce the *same* ack, so
the ack cannot contain the count of live-forwarded recipients. -/
theorem C8_ack_no_live_count_cex :
    ((FileStore.handleRelay
        ⟨[], [], [("V", ⟨["A", "B"], VType.pub⟩)], [("A", 1), ("B", 2)]⟩
        "A" FileStore.MsgType.sendMessage "V" "ct" 1).2.1 = []) ∧
    (((FileStore.handleRelay
        ⟨[], [], [("V", ⟨["A", "B"], VType.pub⟩)], [("A", 1), ("B", 2)]⟩
        "A" FileStore.MsgType.sendMessage "V" "ct" 1).2.2.filter
          (fun f => f.1 == "A")) = []) ∧
    ((InMem.sendM ⟨[], [("a", 9), ("b", 10), ("c", 11)], [("V", ["a", "b", "c"])], 0⟩
        "a" "V" "x" none (some 1) 1).2.1
      = (InMem.sendM ⟨[], [("a", 9), ("b", 10)], [("V", ["a", "b", "c"])], 0⟩
        "a" "V" "x" none (some 1) 1).2.1) ∧
    ((InMem.sendM ⟨[], [("a", 9), ("b", 10), ("c", 11)], [("V", ["a", "b", "c"])], 0⟩
        "a" "V" "x" none (some 1) 1).2.2.length = 2) ∧
    ((InMem.sendM ⟨[], [("a", 9), ("b", 10)], [("V", ["a", "b", "c"])], 0⟩
        "a" "V" "x" none (some 1) 1).2.2.length = 1) := by
  decide

/-- The `delivered` boolean computed by the in-memory send loop is exactly
"some member other than the current user is live". -/
theorem sendLoop_delivered (conns : List (String × Nat)) (cu : String)
    (m : InMem.QMsg) :
    ∀ (ms : List String) (q : List (String × List InMem.QMsg)),
      (InMem.sendLoop conns cu m q ms).2.2
        = ms.any (fun u => u != cu && isLive conns u) := by
  intro ms
  induction ms with
  | nil => intro q; rfl
  | cons u rest ih =>
    intro q
    by_cases hu : (u == cu) = true
    · have hne : (u != cu) = false := by simp [bne, hu]
      simp [InMem.sendLoop, hu, hne, ih]
    · by_cases hl : isLive conns u = true
      · have hne : (u != cu) = true := by simp [bne, hu]
        simp [InMem.sendLoop, hu, hl, hne]
      · simp [InMem.sendLoop, hu, hl, ih]

/-- C8 amended: in the in-memory variant every send is acknowledged to the
sender with the server-assigned message id and a boolean `delivered` flag
that is true exactly when at least one member other than the sender was
forwarded the message live — a presence bit, not a count; the file-storage
variant (`handleRelay`) sends no acknowledgment at all. -/
theorem C8_ack_amended (st : InMem.MState) (cu vaultId blob : String)
    (fromField : Option String) (tsField : Option Nat) (now : Nat)
    (stF : FileStore.SState) (senderF : String) (mtF : FileStore.MsgType)
    (vF bF : String) (tsF : Nat) :
    ((InMem.sendM st cu vaultId blob fromField tsField now).2.1
      = ⟨st.nextId,
         (InMem.membersOf st vaultId).any (fun u => u != cu && isLive st.conns u)⟩) ∧
    ((FileStore.handleRelay stF senderF mtF vF bF tsF).2.1 = []) := by
  constructor
  · simp [InMem.sendM, sendLoop_delivered]
  · unfold FileStore.handleRelay
    cases stF.vaults.lookup vF with
    | none => rfl
    | some v => rfl

/-- C9 counterexample: user `u` identifies on connection 1, then again on
connection 2 (superseding it); when the stale connection 1 later closes,
its close handler deletes the registry entry for `u` unconditionally, so
the still-open connection 2 is deregistered and `lookup(u)` is absent. -/
theorem C9_stale_close_cex :
    (Registry.lookupConn
        (Registry.identifyEv (Registry.identifyEv ⟨[], []⟩ 1 "u") 2 "u") "u"
      = some 2) ∧
    (Registry.lookupConn (Registry.closeEv
        (Registry.identifyEv (Registry.identifyEv ⟨[], []⟩ 1 "u") 2 "u") 1) "u"
      = none) := by
  decide

/-- Erasing a key preserves duplicate-freeness of the keys. -/
theorem keysNodup_eraseKey {l : List (String × Nat)} (k : String)
    (h : Registry.KeysNodup l) : Registry.KeysNodup (eraseKey l k) := by
  unfold Registry.KeysNodup eraseKey at *
  exact h.sublist ((List.filter_sublist l).map Prod.fst)

/-- `Map.set` preserves duplicate-freeness of the keys. -/
theorem keysNodup_setKey {l : List (String × Nat)} (k : String) (v : Nat)
    (h : Registry.KeysNodup l) : Registry.KeysNodup (setKey l k v) := by
  unfold Registry.KeysNodup setKey at *
  simp only [List.map_cons, List.nodup_cons]
  refine ⟨?_, h.sublist ((List.filter_sublist l).map Prod.fst)⟩
  intro hmem
  obtain ⟨p, hp, hfst⟩ := List.mem_map.mp hmem
  have hne := List.of_mem_filter hp
  rw [hfst] at hne
  simp at hne

/-- C9 amended: the registry holds at most one entry per user (`identify`
and `close` preserve duplicate-free keys) and a new identify supersedes the
prior connection, `lookup(u)` returning the new handle; but when the
superseded old connection later closes, its close handler deletes the
user's entry unconditionally, deregistering the new connection, so
`lookup(u)` is absent until the next identify. -/
theorem C9_registry_amended (st : Registry.RState) (c : Nat) (u : String)
    (h : Registry.KeysNodup st.conns) :
    (Registry.lookupConn (Registry.identifyEv st c u) u = some c) ∧
    Registry.KeysNodup (Registry.identifyEv st c u).conns ∧
    Registry.KeysNodup (Registry.closeEv st c).conns ∧
    (Registry.lookupConn (Registry.closeEv
        (Registry.identifyEv (Registry.identifyEv ⟨[], []⟩ 1 "u") 2 "u") 1) "u"
      = none) := by
  refine ⟨?_, keysNodup_setKey u c h, ?_, by decide⟩
  · simp [Registry.lookupConn, Registry.identifyEv, setKey, List.lookup]
  · cases hl : st.auth.lookup c with
    | none => simpa [Registry.closeEv, hl] using h
    | some u' => simpa [Registry.closeEv, hl] using keysNodup_eraseKey u' h

/-- Witness for `C9_registry_amended` at a concrete one-entry registry. -/
theorem C9_registry_amended_w :
    (Registry.lookupConn (Registry.identifyEv ⟨[("x", 5)], []⟩ 7 "u") "u" = some 7) ∧
    Registry.KeysNodup (Registry.identifyEv ⟨[("x", 5)], []⟩ 7 "u").conns ∧
    Registry.KeysNodup (Registry.closeEv ⟨[("x", 5)], []⟩ 7).conns ∧
    (Registry.lookupConn (Registry.closeEv
        (Registry.identifyEv (Registry.identifyEv ⟨[], []⟩ 1 "u") 2 "u") 1) "u"
      = none) :=
  C9_registry_amended ⟨[("x", 5)], []⟩ 7 "u" (by unfold Registry.KeysNodup; decide)



